import Mathlib

/-!
Verification of the core of the sport-betting BFF service: the upstream call
gateway (`app/services/backend_service.py`) and the in-memory sliding-window
rate limiter (`app/main.py`), shallowly embedded as pure Lean functions.

Stateful Python methods become functions from an explicit state to a result
and a new state; the outbound HTTP call performed by `httpx` is modelled by an
`UpstreamResult` parameter describing what the network did (a status/body
response, a timeout, a connection failure, or some other exception).  Raised
`fastapi.HTTPException`s become the `Except.error` branch of the result.
-/

/-- JSON values, the decoded bodies that `response.json()` produces and the
cache stores. -/
inductive Json where
  | null : Json
  | bool (b : Bool) : Json
  | num (n : Int) : Json
  | str (s : String) : Json
  | arr (elems : List Json) : Json
  | obj (fields : List (String × Json)) : Json

/-- `fastapi.HTTPException(status_code=..., detail=...)`.  The detail is either
a string or a JSON object in the source; both are `Json` values here. -/
structure HTTPException where
  status_code : Nat
  detail : Json

/-- What the outbound `client.request(...)` call did.  A `response` carries the
upstream status code and the decoded body (`none` models an empty
`response.content`; bodies that are present are assumed to be valid JSON). -/
inductive UpstreamResult where
  | response (status : Nat) (content : Option Json) : UpstreamResult
  | timeoutExc : UpstreamResult
  | connectError : UpstreamResult
  | otherExc : UpstreamResult

/-- The `self.stats` dictionary of `BackendService`.  The average response time
is a rational number standing for the Python float. -/
structure Stats where
  requests_made : Nat
  cache_hits : Nat
  errors : Nat
  average_response_time : ℚ
deriving DecidableEq

/-- The key data of `BackendService._generate_cache_key`: the dictionary
`key_data = {"method": ..., "endpoint": ..., "params": ..., "auth_header": ...}`.
The source serializes this dictionary with `json.dumps(key_data, sort_keys=True)`
and returns the MD5 hex digest of that string; serialization with sorted keys
is injective on the dictionary and the hash is used as if it were injective
(the code relies on the absence of MD5 collisions), so the key is modelled by
the key data itself. -/
structure CacheKeyData where
  method : String
  endpoint : String
  params : List (String × String)
  auth_header : Option String
deriving DecidableEq

/-- First-match association lookup, modelling Python `dict.get` (keys of a
Python dict are unique, so first match is the match). -/
def assocGet : List (String × String) → String → Option String
  | [], _ => none
  | e :: rest, k => if e.1 = k then some e.2 else assocGet rest k

/-- `headers.get("Authorization") if headers else None`: an absent headers
argument and an empty (falsy) headers dict both give `None`. -/
def headersAuth (headers : Option (List (String × String))) : Option String :=
  match headers with
  | none => none
  | some h => if h.isEmpty then none else assocGet h "Authorization"

/-- `BackendService._generate_cache_key` (`params or {}` turns an absent
params argument into the empty dict). -/
def _generate_cache_key (method endpoint : String)
    (params : Option (List (String × String)))
    (headers : Option (List (String × String))) : CacheKeyData :=
  { method := method
    endpoint := endpoint
    params := params.getD []
    auth_header := headersAuth headers }

/-- `startsWithList pat s`: the char list `pat` is an initial segment of `s`. -/
def startsWithList : List Char → List Char → Bool
  | [], _ => true
  | _ :: _, [] => false
  | c :: cs, d :: ds => c = d && startsWithList cs ds

/-- `pat` occurs somewhere inside `s`, i.e. Python `pat in s` on strings. -/
def hasSub (pat : List Char) : List Char → Bool
  | [] => startsWithList pat []
  | c :: rest => startsWithList pat (c :: rest) || hasSub pat rest

/-- Python substring containment `pat in s`. -/
def strContains (s pat : String) : Bool :=
  hasSub pat.data s.data

/-- Python `str.upper()` (on the ASCII method names this code uses),
character-wise uppercasing. -/
def pyUpper (s : String) : String :=
  ⟨s.data.map Char.toUpper⟩

/-- The `no_cache_patterns` list of `BackendService._should_cache_request`. -/
def no_cache_patterns : List String :=
  ["/api/bets/my-bets", "/api/auth/profile", "/health"]

/-- `BackendService._should_cache_request`: only GET requests (after
`method.upper()`) whose endpoint contains none of the denylist patterns are
cacheable. -/
def _should_cache_request (method endpoint : String) : Bool :=
  if pyUpper method ≠ "GET" then false
  else ! no_cache_patterns.any (fun pattern => strContains endpoint pattern)

/-- The in-memory TTL cache of `BackendService`, `TTLCache(maxsize=1000,
ttl=settings.cache_ttl_seconds)`, modelled by its currently live (non-expired)
entries; a `TTLCache` read treats an aged-out entry as absent, so expiry and
the `in` test together behave as lookup in this association list. -/
def cacheLookup : List (CacheKeyData × Json) → CacheKeyData → Option Json
  | [], _ => none
  | e :: rest, k => if e.1 = k then some e.2 else cacheLookup rest k

/-- `self.cache[cache_key] = response_data`: dict-style assignment, replacing
the entry for the key if present and appending it otherwise. -/
def cacheInsert : List (CacheKeyData × Json) → CacheKeyData → Json → List (CacheKeyData × Json)
  | [], k, v => [(k, v)]
  | e :: rest, k, v => if e.1 = k then (k, v) :: rest else e :: cacheInsert rest k v

/-- The mutable state of a `BackendService` instance: its TTL cache and its
`stats` dictionary. -/
structure GatewayState where
  cache : List (CacheKeyData × Json)
  stats : Stats

/-- The cache-eligibility test on line 101 of the source:
`use_cache and settings.enable_cache and self._should_cache_request(method, endpoint)`. -/
def cacheEligible (use_cache enable_cache : Bool) (method endpoint : String) : Bool :=
  use_cache && enable_cache && _should_cache_request method endpoint

/-- The `cache_key` local of `_make_request`: set only when the request is
cache-eligible. -/
def requestCacheKey (use_cache enable_cache : Bool) (method endpoint : String)
    (params headers : Option (List (String × String))) : Option CacheKeyData :=
  if cacheEligible use_cache enable_cache method endpoint then
    some (_generate_cache_key method endpoint params headers)
  else none

/-- The cache probe of `_make_request` (lines 105-109): the cached value when a
cache key was generated and the key is (non-expired) in the cache. -/
def dispatchCacheHit (st : GatewayState) (use_cache enable_cache : Bool)
    (method endpoint : String) (params headers : Option (List (String × String))) :
    Option Json :=
  (requestCacheKey use_cache enable_cache method endpoint params headers).bind
    (fun k => cacheLookup st.cache k)

/-- `BackendService._update_average_response_time`, called with
`self.stats["requests_made"]` already incremented for the current call. -/
def _update_average_response_time (stats : Stats) (response_time : ℚ) : Stats :=
  let current_avg := stats.average_response_time
  let total_requests := stats.requests_made
  { stats with
    average_response_time :=
      (current_avg * ((total_requests : ℚ) - 1) + response_time) / (total_requests : ℚ) }

/-- `BackendService._handle_response`: `none` means the status was accepted
(200 or 201) and control returns normally; `some exc` means the given
`HTTPException` is raised (inside the `try` block of `_make_request`).
For 400 and 409 the detail is the decoded body when `response.content` is
non-empty and a fixed message dictionary otherwise. -/
def _handle_response (status : Nat) (content : Option Json) : Option HTTPException :=
  if status = 200 ∨ status = 201 then
    none
  else if status = 400 then
    some ⟨400, content.getD (Json.obj [("message", Json.str "Bad Request")])⟩
  else if status = 401 then
    some ⟨401, Json.str "Unauthorized"⟩
  else if status = 404 then
    some ⟨404, Json.str "Resource not found"⟩
  else if status = 409 then
    some ⟨409, content.getD (Json.obj [("message", Json.str "Conflict")])⟩
  else
    some ⟨status, Json.str ("Backend error: " ++ toString status)⟩

/-- The body of the `try` block of `_make_request` after the cache probe
missed, together with its `except` clauses (lines 117-164).  Crucially, the
`HTTPException`s raised by `_handle_response` are raised *inside* the `try`
and `fastapi.HTTPException` is a subclass of `Exception`, so they are caught
by the final `except Exception` clause and re-raised as a 500; the same
happens when `response.json()` fails on an empty body. -/
def networkResult (st : GatewayState) (cache_key : Option CacheKeyData)
    (upstream : UpstreamResult) (response_time : ℚ) :
    Except HTTPException Json × GatewayState :=
  let stats1 := { st.stats with requests_made := st.stats.requests_made + 1 }
  match upstream with
  | UpstreamResult.timeoutExc =>
      (Except.error ⟨504, Json.str "Backend service timeout"⟩,
        { st with stats := { stats1 with errors := stats1.errors + 1 } })
  | UpstreamResult.connectError =>
      (Except.error ⟨503, Json.str "Backend service unavailable"⟩,
        { st with stats := { stats1 with errors := stats1.errors + 1 } })
  | UpstreamResult.otherExc =>
      (Except.error ⟨500, Json.str "Internal server error"⟩,
        { st with stats := { stats1 with errors := stats1.errors + 1 } })
  | UpstreamResult.response status content =>
      let stats2 := _update_average_response_time stats1 response_time
      match _handle_response status content with
      | some _exc =>
          (Except.error ⟨500, Json.str "Internal server error"⟩,
            { st with stats := { stats2 with errors := stats2.errors + 1 } })
      | none =>
          match content with
          | none =>
              (Except.error ⟨500, Json.str "Internal server error"⟩,
                { st with stats := { stats2 with errors := stats2.errors + 1 } })
          | some body =>
              let newCache :=
                match cache_key with
                | some k => if status = 200 then cacheInsert st.cache k body else st.cache
                | none => st.cache
              (Except.ok body, { cache := newCache, stats := stats2 })

/-- `BackendService._make_request`.  The `data` body is forwarded to the
network (whose behaviour the `upstream` argument describes) and does not
otherwise influence the function; `response_time` is the elapsed wall-clock
time measured for the statistics. -/
def _make_request (st : GatewayState) (method endpoint : String) (data : Option Json)
    (params headers : Option (List (String × String)))
    (use_cache enable_cache : Bool)
    (upstream : UpstreamResult) (response_time : ℚ) :
    Except HTTPException Json × GatewayState :=
  match dispatchCacheHit st use_cache enable_cache method endpoint params headers with
  | some cached =>
      (Except.ok cached,
        { st with stats := { st.stats with cache_hits := st.stats.cache_hits + 1 } })
  | none =>
      networkResult st
        (requestCacheKey use_cache enable_cache method endpoint params headers)
        upstream response_time

/-- One rate-limit check for a single client's timestamp list, the core of
`_check_rate_limit` in `app/main.py`: prune timestamps older than the window,
deny without recording when the pruned list already reached `max_requests`,
otherwise record the current time and allow.  Timestamps are rationals
standing for the Python floats returned by `time.time()`. -/
def rlCheck (max_requests : Nat) (window_size : ℚ) (requests : List ℚ) (current_time : ℚ) :
    Bool × List ℚ :=
  let pruned := requests.filter (fun req_time => decide (current_time - req_time < window_size))
  if max_requests ≤ pruned.length then (false, pruned)
  else (true, pruned ++ [current_time])

/-- First-match lookup in the `_rate_limit_store` dict keyed by client ip. -/
def storeLookup : List (String × List ℚ) → String → Option (List ℚ)
  | [], _ => none
  | e :: rest, ip => if e.1 = ip then some e.2 else storeLookup rest ip

/-- Dict assignment `_rate_limit_store[client_ip] = ...`: replace the entry
for the key if present, append it otherwise. -/
def storeSet : List (String × List ℚ) → String → List ℚ → List (String × List ℚ)
  | [], ip, l => [(ip, l)]
  | e :: rest, ip, l => if e.1 = ip then (ip, l) :: rest else e :: storeSet rest ip l

/-- `_check_rate_limit` from `app/main.py` acting on the whole
`_rate_limit_store`: prune the client's entry (an absent client gets a fresh
empty list, whose pruning is also empty), store the pruned list back, then
deny if the pruned list already has `max_requests` entries and otherwise
append the current time and allow. -/
def _check_rate_limit (max_requests : Nat) (window_size : ℚ)
    (store : List (String × List ℚ)) (client_ip : String) (current_time : ℚ) :
    Bool × List (String × List ℚ) :=
  let requests := (storeLookup store client_ip).getD []
  let pruned := requests.filter (fun req_time => decide (current_time - req_time < window_size))
  let store1 := storeSet store client_ip pruned
  if max_requests ≤ pruned.length then (false, store1)
  else (true, storeSet store1 client_ip (pruned ++ [current_time]))

/-- Run a sequence of checks for one client from a given timestamp-list state,
returning the list of allow/deny decisions and the final state. -/
def rlRun (max_requests : Nat) (window_size : ℚ) (state : List ℚ) :
    List ℚ → List Bool × List ℚ
  | [] => ([], state)
  | t :: ts =>
      let c := rlCheck max_requests window_size state t
      let rest := rlRun max_requests window_size c.2 ts
      (c.1 :: rest.1, rest.2)

/-- The times of the calls that return allow, when the checks at the given
call times are run in order from the given state. -/
def rlAllowedTimes (max_requests : Nat) (window_size : ℚ) (state : List ℚ) :
    List ℚ → List ℚ
  | [] => []
  | t :: ts =>
      let c := rlCheck max_requests window_size state t
      (if c.1 then [t] else []) ++ rlAllowedTimes max_requests window_size c.2 ts

/-- Filtering to a window ending at a later time `u` absorbs a previous
pruning to the window ending at `t ≤ u`: anything inside the later window was
inside the earlier one. -/
theorem filter_window_absorb (w t u : ℚ) (htu : t ≤ u) (l : List ℚ) :
    (l.filter (fun s => decide (t - s < w))).filter (fun s => decide (u - s < w))
      = l.filter (fun s => decide (u - s < w)) := by
  rw [List.filter_filter]
  apply List.filter_congr
  intro a _
  by_cases hu : u - a < w
  · have ht : t - a < w := lt_of_le_of_lt (by linarith) hu
    simp [hu, ht]
  · simp [hu]

/-- A filter by a stronger predicate selects at most as many elements. -/
theorem length_filter_le_of_imp {α : Type} (p q : α → Bool) (l : List α)
    (h : ∀ a, p a = true → q a = true) :
    (l.filter p).length ≤ (l.filter q).length := by
  induction l with
  | nil => simp
  | cons a l ih =>
      by_cases hp : p a = true
      · have hq := h a hp
        simp [List.filter, hp, hq]
        omega
      · have hp' : p a = false := by revert hp; cases p a <;> simp
        cases hq : q a <;> simp [List.filter, hp', hq] <;> omega

/-- The deny branch of a rate-limit check. -/
theorem rlCheck_deny (max_requests : Nat) (window_size : ℚ) (requests : List ℚ)
    (t : ℚ)
    (h : max_requests ≤ (requests.filter (fun s => decide (t - s < window_size))).length) :
    rlCheck max_requests window_size requests t
      = (false, requests.filter (fun s => decide (t - s < window_size))) := by
  simp [rlCheck, h]

/-- The allow branch of a rate-limit check. -/
theorem rlCheck_allow (max_requests : Nat) (window_size : ℚ) (requests : List ℚ)
    (t : ℚ)
    (h : ¬ max_requests ≤ (requests.filter (fun s => decide (t - s < window_size))).length) :
    rlCheck max_requests window_size requests t
      = (true, requests.filter (fun s => decide (t - s < window_size)) ++ [t]) := by
  simp [rlCheck, h]

/-- Unfolding equation for `rlAllowedTimes` on a cons cell. -/
theorem rlAllowedTimes_cons (max_requests : Nat) (window_size : ℚ) (st : List ℚ)
    (t : ℚ) (ts : List ℚ) :
    rlAllowedTimes max_requests window_size st (t :: ts)
      = (if (rlCheck max_requests window_size st t).1 then [t] else [])
          ++ rlAllowedTimes max_requests window_size (rlCheck max_requests window_size st t).2 ts := rfl

/-- Looking up a key just stored finds the stored value. -/
theorem storeLookup_storeSet (s : List (String × List ℚ)) (ip : String) (l : List ℚ) :
    storeLookup (storeSet s ip l) ip = some l := by
  induction s with
  | nil => simp [storeSet, storeLookup]
  | cons e rest ih =>
      by_cases he : e.1 = ip
      · simp [storeSet, storeLookup, he]
      · simp [storeSet, storeLookup, he, ih]

/-- Sliding-window bound, generalized for induction: running checks at
nondecreasing times `ts`, all at or after `t0`, from a state `st` that (for
every window ending at `u ≥ t0`) dominates the already-allowed times `A`, the
allowed times inside any window of length `w` ending at `T` — counting the
earlier allowed times `A` as well — never exceed `max_requests`, unless the
window count of `A` alone already did. -/
theorem rl_bound_aux (max_requests : ℕ) (w : ℚ) (hw : 0 < w) :
    ∀ (ts : List ℚ), ts.Pairwise (fun a b => a ≤ b) →
    ∀ (t0 : ℚ), (∀ t ∈ ts, t0 ≤ t) →
    ∀ (A st : List ℚ),
      (∀ u : ℚ, t0 ≤ u →
        List.Sublist (A.filter (fun s => decide (u - s < w)))
          (st.filter (fun s => decide (u - s < w)))) →
    ∀ T : ℚ,
      ((A ++ rlAllowedTimes max_requests w st ts).filter
          (fun s => decide (T - w < s) && decide (s ≤ T))).length
        ≤ max max_requests
            ((A.filter (fun s => decide (T - w < s) && decide (s ≤ T))).length) := by
  intro ts
  induction ts with
  | nil =>
      intro _ t0 _ A st _ T
      simp only [rlAllowedTimes, List.append_nil]
      exact le_max_right _ _
  | cons t ts ih =>
      intro hpw t0 hts A st hInv T
      rcases List.pairwise_cons.mp hpw with ⟨hfw, hpw'⟩
      have ht0t : t0 ≤ t := hts t (List.mem_cons_self t ts)
      rw [rlAllowedTimes_cons]
      by_cases hd : max_requests ≤ ((st.filter (fun s => decide (t - s < w))).length)
      · rw [rlCheck_deny _ _ _ _ hd]
        simp only [Bool.false_eq_true, if_false, List.nil_append]
        refine ih hpw' t hfw A (st.filter (fun s => decide (t - s < w))) ?_ T
        intro u hu
        rw [filter_window_absorb w t u hu st]
        exact hInv u (le_trans ht0t hu)
      · rw [rlCheck_allow _ _ _ _ hd]
        simp only [if_true, List.singleton_append]
        have hassoc :
            A ++ (t :: rlAllowedTimes max_requests w
                (st.filter (fun s => decide (t - s < w)) ++ [t]) ts)
              = (A ++ [t]) ++ rlAllowedTimes max_requests w
                (st.filter (fun s => decide (t - s < w)) ++ [t]) ts := by
          simp
        rw [hassoc]
        have hInv' : ∀ u : ℚ, t ≤ u →
            List.Sublist ((A ++ [t]).filter (fun s => decide (u - s < w)))
              (((st.filter (fun s => decide (t - s < w))) ++ [t]).filter
                (fun s => decide (u - s < w))) := by
          intro u hu
          rw [List.filter_append, List.filter_append, filter_window_absorb w t u hu st]
          exact List.Sublist.append (hInv u (le_trans ht0t hu)) (List.Sublist.refl _)
        have hmain := ih hpw' t hfw (A ++ [t])
          (st.filter (fun s => decide (t - s < w)) ++ [t]) hInv' T
        by_cases hT : (decide (T - w < t) && decide (t ≤ T)) = true
        · have h1 : T - w < t ∧ t ≤ T := by simpa using hT
          have hcnt :
              ((A.filter (fun s => decide (T - w < s) && decide (s ≤ T))).length) + 1
                ≤ max_requests := by
            have hle1 :
                ((A.filter (fun s => decide (T - w < s) && decide (s ≤ T))).length)
                  ≤ ((A.filter (fun s => decide (t - s < w))).length) := by
              refine length_filter_le_of_imp _ _ A ?_
              intro a ha
              have ha' : T - w < a ∧ a ≤ T := by simpa using ha
              have : t - a < w := by linarith [h1.2, ha'.1]
              simpa using this
            have hle2 :
                ((A.filter (fun s => decide (t - s < w))).length)
                  ≤ ((st.filter (fun s => decide (t - s < w))).length) :=
              (hInv t ht0t).length_le
            omega
          have hsplit :
              ((A ++ [t]).filter (fun s => decide (T - w < s) && decide (s ≤ T))).length
                = ((A.filter (fun s => decide (T - w < s) && decide (s ≤ T))).length) + 1 := by
            rw [List.filter_append]
            simp [hT]
          have hcollapse :
              max max_requests
                  (((A ++ [t]).filter (fun s => decide (T - w < s) && decide (s ≤ T))).length)
                = max_requests := by
            rw [hsplit]; exact max_eq_left hcnt
          rw [hcollapse] at hmain
          exact le_trans hmain (le_max_left _ _)
        · have hT' : (decide (T - w < t) && decide (t ≤ T)) = false := by
            revert hT; cases (decide (T - w < t) && decide (t ≤ T)) <;> simp
          have hsame :
              ((A ++ [t]).filter (fun s => decide (T - w < s) && decide (s ≤ T))).length
                = ((A.filter (fun s => decide (T - w < s) && decide (s ≤ T))).length) := by
            rw [List.filter_append]
            simp [hT']
          rw [hsame] at hmain
          exact hmain

/-- Claim C2: the sliding-window rate limiter.  For every client and every
trailing `window_size`-second interval, at most `max_requests` checks return
allow (first conjunct, for any nondecreasing sequence of check times run from
the initial empty list); a denied attempt appends no timestamp — the state
after a denial is exactly the pruned previous list (second conjunct); after
every check the client's list holds only timestamps within `window_size`
seconds of now (third conjunct); `_check_rate_limit` acts on the full store
exactly as the single-client check acts on that client's entry (fourth
conjunct); and concretely, with `max_requests = 3` and `window_size = 60`,
three calls at time 0 are allowed, an immediate fourth call is denied, and a
call at time 61 — past the window — is allowed again (last conjunct). -/
theorem rate_limiter_sliding_window :
    (∀ (max_requests : ℕ) (window_size : ℚ), 0 < window_size →
      (∀ ts : List ℚ, ts.Pairwise (fun a b => a ≤ b) →
        ∀ T : ℚ,
          ((rlAllowedTimes max_requests window_size [] ts).filter
              (fun s => decide (T - window_size < s) && decide (s ≤ T))).length
            ≤ max_requests)
      ∧ (∀ (requests : List ℚ) (now : ℚ),
          (rlCheck max_requests window_size requests now).1 = false →
          (rlCheck max_requests window_size requests now).2
            = requests.filter (fun s => decide (now - s < window_size)))
      ∧ (∀ (requests : List ℚ) (now s : ℚ),
          s ∈ (rlCheck max_requests window_size requests now).2 →
          now - s < window_size)
      ∧ (∀ (store : List (String × List ℚ)) (ip : String) (now : ℚ),
          (_check_rate_limit max_requests window_size store ip now).1
            = (rlCheck max_requests window_size ((storeLookup store ip).getD []) now).1
          ∧ storeLookup (_check_rate_limit max_requests window_size store ip now).2 ip
            = some (rlCheck max_requests window_size ((storeLookup store ip).getD []) now).2))
    ∧ (rlRun 3 60 [] [0, 0, 0, 0, 61]).1 = [true, true, true, false, true] := by
  constructor
  · intro maxR w hw
    refine ⟨?_, ?_, ?_, ?_⟩
    · intro ts hpw T
      cases ts with
      | nil => simp [rlAllowedTimes]
      | cons t ts =>
          have hts : ∀ x ∈ t :: ts, t ≤ x := by
            intro x hx
            rcases List.mem_cons.mp hx with h | h
            · exact h ▸ le_refl t
            · exact (List.pairwise_cons.mp hpw).1 x h
          have := rl_bound_aux maxR w hw (t :: ts) hpw t hts [] []
            (by intro u _; simp) T
          simpa using this
    · intro requests now h
      by_cases hd : maxR ≤ ((requests.filter (fun s => decide (now - s < w))).length)
      · rw [rlCheck_deny _ _ _ _ hd]
      · rw [rlCheck_allow _ _ _ _ hd] at h
        simp at h
    · intro requests now s hs
      by_cases hd : maxR ≤ ((requests.filter (fun s => decide (now - s < w))).length)
      · rw [rlCheck_deny _ _ _ _ hd] at hs
        have := (List.mem_filter.mp hs).2
        simpa using this
      · rw [rlCheck_allow _ _ _ _ hd] at hs
        rcases List.mem_append.mp hs with h | h
        · have := (List.mem_filter.mp h).2
          simpa using this
        · have : s = now := by simpa using h
          rw [this]
          simpa using hw
    · intro store ip now
      by_cases hd : maxR ≤ ((((storeLookup store ip).getD []).filter
          (fun s => decide (now - s < w))).length)
      · rw [rlCheck_deny _ _ _ _ hd]
        constructor
        · simp [_check_rate_limit, hd]
        · simp only [_check_rate_limit, hd, if_true, if_pos hd]
          exact storeLookup_storeSet _ _ _
      · rw [rlCheck_allow _ _ _ _ hd]
        constructor
        · simp [_check_rate_limit, hd]
        · simp only [_check_rate_limit, hd, if_neg hd]
          exact storeLookup_storeSet _ _ _
  · norm_num [rlRun, rlCheck, List.filter]

/-- Witness for the rate-limiter claim: the general window bound, applied to
the concrete trace of the claim (three calls at time 0, a fourth at time 0, a
fifth at time 61) and the window ending at time 61, with bound 3. -/
theorem rate_limiter_sliding_window_witness :
    ((rlAllowedTimes 3 60 [] [0, 0, 0, 0, 61]).filter
        (fun s => decide ((61 : ℚ) - 60 < s) && decide (s ≤ (61 : ℚ)))).length ≤ 3 :=
  (rate_limiter_sliding_window.1 3 60 (by simp)).1 [0, 0, 0, 0, 61]
    (by simp [List.pairwise_cons]) 61

/-- When no cache key was generated, no branch of the network path touches the
cache. -/
theorem networkResult_cache_none (st : GatewayState) (upstream : UpstreamResult) (rt : ℚ) :
    ((networkResult st none upstream rt).2).cache = st.cache := by
  cases upstream with
  | response status content =>
      simp only [networkResult]
      cases _handle_response status content with
      | some e => rfl
      | none => cases content with
        | none => rfl
        | some body => rfl
  | timeoutExc => rfl
  | connectError => rfl
  | otherExc => rfl

/-- A request whose method is not (case-insensitively) GET is not cacheable. -/
theorem should_cache_false_of_method (method endpoint : String)
    (h : pyUpper method ≠ "GET") :
    _should_cache_request method endpoint = false := by
  simp [_should_cache_request, h]

/-- No cache key is generated for a request that the policy refuses to cache,
whatever the caller's hint and the global cache flag. -/
theorem requestCacheKey_none_of (use_cache enable_cache : Bool) (method endpoint : String)
    (params headers : Option (List (String × String)))
    (h : _should_cache_request method endpoint = false) :
    requestCacheKey use_cache enable_cache method endpoint params headers = none := by
  simp [requestCacheKey, cacheEligible, h]

/-- The cache probe misses whenever the policy refuses to cache the request. -/
theorem dispatchCacheHit_none_of (st : GatewayState) (use_cache enable_cache : Bool)
    (method endpoint : String) (params headers : Option (List (String × String)))
    (h : _should_cache_request method endpoint = false) :
    dispatchCacheHit st use_cache enable_cache method endpoint params headers = none := by
  simp [dispatchCacheHit, requestCacheKey_none_of use_cache enable_cache method endpoint
    params headers h]

/-- A dispatch that the policy refuses to cache leaves the cache untouched
(it is neither read nor written). -/
theorem make_request_cache_unchanged (st : GatewayState) (method endpoint : String)
    (data : Option Json) (params headers : Option (List (String × String)))
    (use_cache enable_cache : Bool) (upstream : UpstreamResult) (rt : ℚ)
    (h : _should_cache_request method endpoint = false) :
    ((_make_request st method endpoint data params headers use_cache enable_cache
        upstream rt).2).cache = st.cache := by
  unfold _make_request
  rw [dispatchCacheHit_none_of st use_cache enable_cache method endpoint params headers h,
    requestCacheKey_none_of use_cache enable_cache method endpoint params headers h]
  exact networkResult_cache_none st upstream rt

/-- Claim C4: a cache-eligible dispatch whose key has a live (non-expired)
cache entry returns the cached body immediately, increments the cache-hit
counter by exactly one, and issues no outbound call: the result does not
depend on the network outcome at all and the rest of the state — in
particular the requests-made network-call counter — is unchanged. -/
theorem cache_hit_short_circuits (st : GatewayState) (method endpoint : String)
    (data : Option Json) (params headers : Option (List (String × String)))
    (use_cache enable_cache : Bool) (upstream : UpstreamResult) (rt : ℚ) (v : Json)
    (h_elig : cacheEligible use_cache enable_cache method endpoint = true)
    (h_hit : cacheLookup st.cache (_generate_cache_key method endpoint params headers)
      = some v) :
    _make_request st method endpoint data params headers use_cache enable_cache upstream rt
      = (Except.ok v,
         { st with stats := { st.stats with cache_hits := st.stats.cache_hits + 1 } }) := by
  unfold _make_request dispatchCacheHit requestCacheKey
  rw [h_elig]
  simp [h_hit]

/-- Witness for the cache-hit claim at a concrete warmed state: a repeated
eligible GET for the events list is answered from the cache (with cache-hit
count going from 7 to 8 and the requests-made count staying 5) even though
the network would have timed out. -/
theorem cache_hit_short_circuits_witness :
    _make_request
        ⟨[(_generate_cache_key "GET" "/api/events" none none, Json.arr [])], ⟨5, 7, 0, 0⟩⟩
        "GET" "/api/events" none none none true true UpstreamResult.timeoutExc 0
      = (Except.ok (Json.arr []),
         ⟨[(_generate_cache_key "GET" "/api/events" none none, Json.arr [])], ⟨5, 8, 0, 0⟩⟩) :=
  cache_hit_short_circuits
    ⟨[(_generate_cache_key "GET" "/api/events" none none, Json.arr [])], ⟨5, 7, 0, 0⟩⟩
    "GET" "/api/events" none none none true true UpstreamResult.timeoutExc 0 (Json.arr [])
    rfl rfl

/-- Claim C3 counterexample: a dispatch served from the cache does not
increment the requests-made counter — starting from a warmed cache and a
counter of 0, the counter is still 0 (not 1) after the dispatch, so the
counter does not count every dispatch call and is not incremented before the
cache check. -/
theorem requests_made_cache_hit_cex :
    ((_make_request
        ⟨[(_generate_cache_key "GET" "/api/events" none none, Json.null)], ⟨0, 0, 0, 0⟩⟩
        "GET" "/api/events" none none none true true
        (UpstreamResult.response 200 (some Json.null)) 0).2).stats.requests_made
      ≠ 0 + 1 := by
  decide

/-- Claim C3 amended: the requests-made counter counts dispatches that reach
the network-call attempt: it is unchanged on a cache hit and incremented
exactly once otherwise — before the outbound call completes, so dispatches
whose outbound call fails are counted too (every network branch of the
outcome yields the same increment). -/
theorem requests_made_increment_semantics (st : GatewayState) (method endpoint : String)
    (data : Option Json) (params headers : Option (List (String × String)))
    (use_cache enable_cache : Bool) (upstream : UpstreamResult) (rt : ℚ) :
    ((_make_request st method endpoint data params headers use_cache enable_cache
        upstream rt).2).stats.requests_made
      = if (dispatchCacheHit st use_cache enable_cache method endpoint params
            headers).isSome
        then st.stats.requests_made
        else st.stats.requests_made + 1 := by
  unfold _make_request
  cases hh : dispatchCacheHit st use_cache enable_cache method endpoint params headers with
  | some v => simp
  | none =>
      simp only [Option.isSome_none, Bool.false_eq_true, if_false]
      cases upstream with
      | response status content =>
          simp only [networkResult]
          cases _handle_response status content with
          | some e => simp [_update_average_response_time]
          | none => cases content with
            | none => simp [_update_average_response_time]
            | some body => simp [_update_average_response_time]
      | timeoutExc => simp [networkResult]
      | connectError => simp [networkResult]
      | otherExc => simp [networkResult]

/-- Claim C8: an outbound-call timeout is surfaced as a Gateway-Timeout
condition with status 504, and a failure to establish the connection as a
Service-Unavailable condition with status 503, each with its own message, for
every dispatch that actually issues the outbound call (one that is not served
from the cache). -/
theorem timeout_and_connect_error_mapping (st : GatewayState) (method endpoint : String)
    (data : Option Json) (params headers : Option (List (String × String)))
    (use_cache enable_cache : Bool) (rt : ℚ)
    (h_miss : dispatchCacheHit st use_cache enable_cache method endpoint params headers
      = none) :
    _make_request st method endpoint data params headers use_cache enable_cache
        UpstreamResult.timeoutExc rt
      = (Except.error ⟨504, Json.str "Backend service timeout"⟩,
         { st with stats := { st.stats with
             requests_made := st.stats.requests_made + 1,
             errors := st.stats.errors + 1 } })
    ∧ _make_request st method endpoint data params headers use_cache enable_cache
        UpstreamResult.connectError rt
      = (Except.error ⟨503, Json.str "Backend service unavailable"⟩,
         { st with stats := { st.stats with
             requests_made := st.stats.requests_made + 1,
             errors := st.stats.errors + 1 } }) := by
  unfold _make_request
  rw [h_miss]
  exact ⟨rfl, rfl⟩

/-- Witness for the timeout/connection-failure mapping: from a fresh service
state, a timing-out POST login dispatch fails with status 504 and the message
"Backend service timeout". -/
theorem timeout_and_connect_error_mapping_witness :
    _make_request ⟨[], ⟨0, 0, 0, 0⟩⟩ "POST" "/api/auth/login" (some (Json.obj [])) none none
        false true UpstreamResult.timeoutExc 0
      = (Except.error ⟨504, Json.str "Backend service timeout"⟩,
         ⟨[], ⟨1, 0, 1, 0⟩⟩) :=
  (timeout_and_connect_error_mapping ⟨[], ⟨0, 0, 0, 0⟩⟩ "POST" "/api/auth/login"
    (some (Json.obj [])) none none false true 0 rfl).1

/-- Claim C9: the running average response time is updated only by dispatches
that reach the network — a cache hit leaves it unchanged (first conjunct) —
and when a network response arrives the update satisfies
`new_avg = ((old_avg * (n - 1)) + this_call_time) / n` where `n` is the
requests-made counter after its increment for this dispatch (second
conjunct). -/
theorem average_response_time_semantics (st : GatewayState) (method endpoint : String)
    (data : Option Json) (params headers : Option (List (String × String)))
    (use_cache enable_cache : Bool) (rt : ℚ) :
    (∀ upstream : UpstreamResult,
      (dispatchCacheHit st use_cache enable_cache method endpoint params headers).isSome
        = true →
      ((_make_request st method endpoint data params headers use_cache enable_cache
          upstream rt).2).stats.average_response_time
        = st.stats.average_response_time)
    ∧ (∀ (status : Nat) (content : Option Json),
        dispatchCacheHit st use_cache enable_cache method endpoint params headers = none →
        ((_make_request st method endpoint data params headers use_cache enable_cache
            (UpstreamResult.response status content) rt).2).stats.average_response_time
          = (st.stats.average_response_time * (((st.stats.requests_made : ℚ) + 1) - 1) + rt)
              / ((st.stats.requests_made : ℚ) + 1)
        ∧ ((_make_request st method endpoint data params headers use_cache enable_cache
            (UpstreamResult.response status content) rt).2).stats.requests_made
          = st.stats.requests_made + 1) := by
  constructor
  · intro upstream h
    rcases Option.isSome_iff_exists.mp h with ⟨v, hv⟩
    unfold _make_request
    rw [hv]
  · intro status content hm
    unfold _make_request
    rw [hm]
    simp only [networkResult]
    cases hr : _handle_response status content with
    | some e =>
        refine ⟨?_, ?_⟩ <;> simp [_update_average_response_time]
    | none =>
        cases content with
        | none =>
            refine ⟨?_, ?_⟩ <;> simp [_update_average_response_time]
        | some body =>
            refine ⟨?_, ?_⟩ <;> simp [_update_average_response_time]

/-- Witness for the average-update claim: a first network dispatch from a
fresh state, taking 2 seconds, sets the average to `((0 * (1 - 1)) + 2) / 1`
and the requests-made count to 1. -/
theorem average_response_time_semantics_witness :
    ((_make_request ⟨[], ⟨0, 0, 0, 0⟩⟩ "GET" "/api/events" none none none true true
        (UpstreamResult.response 200 (some Json.null)) 2).2).stats.average_response_time
      = ((0 : ℚ) * ((((0 : ℕ) : ℚ) + 1) - 1) + 2) / (((0 : ℕ) : ℚ) + 1)
    ∧ ((_make_request ⟨[], ⟨0, 0, 0, 0⟩⟩ "GET" "/api/events" none none none true true
        (UpstreamResult.response 200 (some Json.null)) 2).2).stats.requests_made
      = 0 + 1 :=
  (average_response_time_semantics ⟨[], ⟨0, 0, 0, 0⟩⟩ "GET" "/api/events" none none none
    true true 2).2 200 (some Json.null) rfl

/-- Claim C7 counterexample: an upstream response with the 2xx status 204 does
not make the dispatch return the parsed payload — the gateway fails instead
(`_handle_response` accepts only 200 and 201, and the raised exception is
converted to a 500), so "any 2xx status" is wrong. -/
theorem success_any_2xx_cex :
    ((_make_request ⟨[], ⟨0, 0, 0, 0⟩⟩ "GET" "/api/events" none none none true true
        (UpstreamResult.response 204 (some Json.null)) 0).1) ≠ Except.ok Json.null := by
  intro hc
  have h : ((_make_request ⟨[], ⟨0, 0, 0, 0⟩⟩ "GET" "/api/events" none none none true true
      (UpstreamResult.response 204 (some Json.null)) 0).1)
        = Except.error ⟨500, Json.str "Internal server error"⟩ := rfl
  rw [h] at hc
  exact Except.noConfusion hc

/-- Claim C7 amended: for a dispatch that issues the outbound call and gets
status exactly 200 or 201 with a (valid JSON) body, the caller receives
exactly the parsed payload with no wrapping, and the payload is stored under
the cache key precisely when the dispatch was cache-eligible and the status
is 200 (201 responses are decoded and returned but never cached; other 2xx
statuses error out instead of returning the payload). -/
theorem success_200_201_payload (st : GatewayState) (method endpoint : String)
    (data : Option Json) (params headers : Option (List (String × String)))
    (use_cache enable_cache : Bool) (status : Nat) (body : Json) (rt : ℚ)
    (h_miss : dispatchCacheHit st use_cache enable_cache method endpoint params headers
      = none)
    (h_status : status = 200 ∨ status = 201) :
    ((_make_request st method endpoint data params headers use_cache enable_cache
        (UpstreamResult.response status (some body)) rt).1) = Except.ok body
    ∧ ((_make_request st method endpoint data params headers use_cache enable_cache
        (UpstreamResult.response status (some body)) rt).2).cache
      = (if status = 200 then
           match requestCacheKey use_cache enable_cache method endpoint params headers with
           | some k => cacheInsert st.cache k body
           | none => st.cache
         else st.cache) := by
  unfold _make_request
  rw [h_miss]
  simp only [networkResult]
  rcases h_status with h | h <;> subst h <;>
    cases hk : requestCacheKey use_cache enable_cache method endpoint params headers <;>
      simp [_handle_response, hk]

/-- Witness for the 200/201-success claim: a cache-eligible GET for the
events list with a 200 response returns the body and stores it under the
generated key. -/
theorem success_200_201_payload_witness :
    ((_make_request ⟨[], ⟨0, 0, 0, 0⟩⟩ "GET" "/api/events" none none none true true
        (UpstreamResult.response 200 (some (Json.arr []))) 0).1) = Except.ok (Json.arr [])
    ∧ ((_make_request ⟨[], ⟨0, 0, 0, 0⟩⟩ "GET" "/api/events" none none none true true
        (UpstreamResult.response 200 (some (Json.arr []))) 0).2).cache
      = (if (200 : Nat) = 200 then
           match requestCacheKey true true "GET" "/api/events" none none with
           | some k => cacheInsert [] k (Json.arr [])
           | none => ([] : List (CacheKeyData × Json))
         else []) :=
  success_200_201_payload ⟨[], ⟨0, 0, 0, 0⟩⟩ "GET" "/api/events" none none none true true
    200 (Json.arr []) 0 rfl (Or.inl rfl)

/-- Claim C1: the per-status mapping of `_handle_response` is exactly as
described — 400 passes the upstream body through, 401 becomes a generic 401,
404 becomes a 404 with the fixed message "Resource not found" (the upstream
detail is not preserved), 409 passes the body through, any other status maps
to a generic backend error carrying that status (first five conjuncts) — but
none of these conditions ever reaches the caller of a dispatch: each raised
`HTTPException` is caught by the blanket `except Exception` of
`_make_request` and surfaced as a 500 "Internal server error" instead (sixth
conjunct, and the concrete upstream-404 dispatch in the last conjunct). -/
theorem upstream_status_mapping_swallowed_to_500 :
    (∀ b : Json, _handle_response 400 (some b) = some ⟨400, b⟩)
    ∧ (∀ c : Option Json, _handle_response 401 c = some ⟨401, Json.str "Unauthorized"⟩)
    ∧ (∀ c : Option Json, _handle_response 404 c = some ⟨404, Json.str "Resource not found"⟩)
    ∧ (∀ b : Json, _handle_response 409 (some b) = some ⟨409, b⟩)
    ∧ (∀ (status : Nat) (c : Option Json),
        status ≠ 200 → status ≠ 201 → status ≠ 400 → status ≠ 401 → status ≠ 404 →
        status ≠ 409 →
        _handle_response status c
          = some ⟨status, Json.str ("Backend error: " ++ toString status)⟩)
    ∧ (∀ (st : GatewayState) (method endpoint : String) (data : Option Json)
        (params headers : Option (List (String × String)))
        (use_cache enable_cache : Bool) (rt : ℚ) (status : Nat) (content : Option Json)
        (exc : HTTPException),
        dispatchCacheHit st use_cache enable_cache method endpoint params headers = none →
        _handle_response status content = some exc →
        ((_make_request st method endpoint data params headers use_cache enable_cache
            (UpstreamResult.response status content) rt).1)
          = Except.error ⟨500, Json.str "Internal server error"⟩)
    ∧ ((_make_request ⟨[], ⟨0, 0, 0, 0⟩⟩ "GET" "/api/events/999" none none none true true
          (UpstreamResult.response 404
            (some (Json.obj [("detail", Json.str "Event not found")]))) 0).1
        = Except.error ⟨500, Json.str "Internal server error"⟩) := by
  refine ⟨?_, ?_, ?_, ?_, ?_, ?_, ?_⟩
  · intro b; simp [_handle_response]
  · intro c; simp [_handle_response]
  · intro c; simp [_handle_response]
  · intro b; simp [_handle_response]
  · intro status c h200 h201 h400 h401 h404 h409
    simp [_handle_response, h200, h201, h400, h401, h404, h409]
  · intro st method endpoint data params headers use_cache enable_cache rt status content
      exc hm hexc
    unfold _make_request
    rw [hm]
    simp [networkResult, hexc]
  · rfl

/-- Witness for the status-mapping claim: an unlisted status such as 418 is
mapped by `_handle_response` to a generic backend error carrying 418. -/
theorem upstream_status_mapping_swallowed_to_500_witness :
    _handle_response 418 none
      = some ⟨418, Json.str ("Backend error: " ++ toString 418)⟩ :=
  upstream_status_mapping_swallowed_to_500.2.2.2.2.1 418 none (by decide) (by decide)
    (by decide) (by decide) (by decide) (by decide)

/-- Claim C5: the cache key is a function of (method, endpoint, params, auth
header value) only — two calls with the same method, endpoint and params and
the same (possibly absent) Authorization value get the same key — and it is
auth-separating: if only the Authorization header value differs, the keys
differ, preventing cross-user cache bleed. -/
theorem cache_key_determinism_and_auth_separation (method endpoint : String)
    (params : Option (List (String × String)))
    (headers₁ headers₂ : Option (List (String × String))) :
    (headersAuth headers₁ = headersAuth headers₂ →
      _generate_cache_key method endpoint params headers₁
        = _generate_cache_key method endpoint params headers₂)
    ∧ (headersAuth headers₁ ≠ headersAuth headers₂ →
      _generate_cache_key method endpoint params headers₁
        ≠ _generate_cache_key method endpoint params headers₂) := by
  constructor
  · intro hEq
    simp [_generate_cache_key, hEq]
  · intro hNe hkey
    exact hNe (congrArg CacheKeyData.auth_header hkey)

/-- Witness for the cache-key claim: two GETs for the same endpoint that
differ only in the bearer token get different cache keys. -/
theorem cache_key_determinism_and_auth_separation_witness :
    _generate_cache_key "GET" "/api/events" none
        (some [("Authorization", "Bearer alice")])
      ≠ _generate_cache_key "GET" "/api/events" none
        (some [("Authorization", "Bearer bob")]) :=
  (cache_key_determinism_and_auth_separation "GET" "/api/events" none
    (some [("Authorization", "Bearer alice")])
    (some [("Authorization", "Bearer bob")])).2 (by decide)

/-- Claim C6: a request passes the cache-eligibility policy exactly when its
method (after `upper()`) is GET and its endpoint matches none of the denylist
patterns (personal bet list, profile, health check); and every POST, PUT,
DELETE or PATCH request is never cached regardless of the caller's
`use_cache` hint and the global cache flag — its eligibility is false and the
dispatch leaves the cache untouched. -/
theorem cache_eligibility_policy (method endpoint : String) :
    (_should_cache_request method endpoint = true
      ↔ (pyUpper method = "GET"
          ∧ ∀ pattern ∈ no_cache_patterns, strContains endpoint pattern = false))
    ∧ (∀ m, m ∈ ["POST", "PUT", "DELETE", "PATCH"] →
        (∀ use_cache enable_cache : Bool,
          cacheEligible use_cache enable_cache m endpoint = false)
        ∧ (∀ (st : GatewayState) (data : Option Json)
            (params headers : Option (List (String × String)))
            (use_cache enable_cache : Bool) (upstream : UpstreamResult) (rt : ℚ),
            ((_make_request st m endpoint data params headers use_cache enable_cache
                upstream rt).2).cache = st.cache)) := by
  constructor
  · by_cases hG : pyUpper method = "GET"
    · simp [_should_cache_request, hG, List.any_eq_false]
    · simp [_should_cache_request, hG]
  · intro m hm
    have hm' : pyUpper m ≠ "GET" := by
      fin_cases hm <;> decide
    refine ⟨?_, ?_⟩
    · intro use_cache enable_cache
      simp [cacheEligible, should_cache_false_of_method m endpoint hm']
    · intro st data params headers use_cache enable_cache upstream rt
      exact make_request_cache_unchanged st m endpoint data params headers use_cache
        enable_cache upstream rt (should_cache_false_of_method m endpoint hm')

/-- Witness for the eligibility-policy claim: a plain GET for the events list
passes the policy, and a POST to the same endpoint has eligibility false even
with both cache switches on. -/
theorem cache_eligibility_policy_witness :
    _should_cache_request "GET" "/api/events" = true
    ∧ cacheEligible true true "POST" "/api/events" = false :=
  ⟨(cache_eligibility_policy "GET" "/api/events").1.mpr ⟨rfl, by decide⟩,
   ((cache_eligibility_policy "POST" "/api/events").2 "POST" (by simp)).1 true true⟩

/-- Claim C10: denylist matching is substring containment, not exact or
prefix matching: any endpoint containing a denylist pattern anywhere is
refused by the cache policy whatever the method (first conjunct); in
particular "/api/healthcheck" contains the pattern "/health" (second
conjunct) without being one of the denylisted endpoints (third conjunct), yet
a GET for it is not cacheable (fourth conjunct) and its dispatch never
touches the cache (last conjunct). -/
theorem denylist_substring_semantics :
    (∀ (method endpoint pattern : String), pattern ∈ no_cache_patterns →
        strContains endpoint pattern = true →
        _should_cache_request method endpoint = false)
    ∧ strContains "/api/healthcheck" "/health" = true
    ∧ "/api/healthcheck" ∉ no_cache_patterns
    ∧ _should_cache_request "GET" "/api/healthcheck" = false
    ∧ (∀ (st : GatewayState) (data : Option Json)
        (params headers : Option (List (String × String)))
        (use_cache enable_cache : Bool) (upstream : UpstreamResult) (rt : ℚ),
        ((_make_request st "GET" "/api/healthcheck" data params headers use_cache
            enable_cache upstream rt).2).cache = st.cache) := by
  refine ⟨?_, ?_, ?_, ?_, ?_⟩
  · intro method endpoint pattern hmem hsub
    by_cases hG : pyUpper method = "GET"
    · simp only [_should_cache_request, hG, ne_eq, not_true_eq_false, if_false,
        Bool.not_eq_false', List.any_eq_true]
      exact ⟨pattern, hmem, hsub⟩
    · simp [_should_cache_request, hG]
  · decide
  · decide
  · decide
  · intro st data params headers use_cache enable_cache upstream rt
    exact make_request_cache_unchanged st "GET" "/api/healthcheck" data params headers
      use_cache enable_cache upstream rt (by decide)

/-- Witness for the substring-matching claim: the general substring rule
applied to the concrete endpoint "/api/healthcheck" and the pattern
"/health". -/
theorem denylist_substring_semantics_witness :
    _should_cache_request "POST" "/api/healthcheck" = false :=
  denylist_substring_semantics.1 "POST" "/api/healthcheck" "/health" (by decide) (by decide)
